import Mathlib

/-!
Shallow embedding of the goadb device layer (src/device.go) together with the
parts of the repository that device.go depends on but whose sources are not
available here (the internal errors package, the device-descriptor resolver,
and small string helpers); those are modelled from the spec and are marked as
such in their doc comments.  Effectful operations are embedded as pure
functions of an explicit environment recording the outcome of each external
call (dial, send, read-status, read-until-eof, the context cancellation
state), mirroring the control flow of the Go code line by line.
-/

namespace GoAdb

/-- Modelled from the spec: the error-kind enumeration of the internal errors
package (missing from src/), listed in spec section 7. -/
inductive ErrCode where
  | AssertionError
  | ParseError
  | DeviceNotFound
  | ConnectionError
  | NetworkError
  | ProtocolError
deriving DecidableEq, Repr

/-- The two possible non-nil results of ctx.Err() in Go. -/
inductive CtxErr where
  | canceled
  | deadlineExceeded
deriving DecidableEq, Repr

/-- Error values as device.go produces them.  err models a leaf value of the
internal errors package (code plus message); wrapClient models the result of
wrapClientError (modelled from the spec: a single wrapping function attaching
operation and descriptor context to an inner error without discarding the
inner kind or cause); fmtWrap models fmt.Errorf with a static text followed by
a wrapped inner error; fmtNew models fmt.Errorf without a wrapped error;
ctx models the sentinel errors returned by ctx.Err(); noOp models the package
level ErrNoOp sentinel of device.go. -/
inductive AdbError where
  | err (code : ErrCode) (message : String)
  | wrapClient (op : String) (descriptor : String) (inner : AdbError)
  | fmtWrap (pre : String) (inner : AdbError)
  | fmtNew (message : String)
  | ctx (e : CtxErr)
  | noOp
deriving DecidableEq, Repr

/-- The printed name of an error code, as in the test expectations of the
repository (for example "DeviceNotFound: device list doesn't contain serial"). -/
def codeName : ErrCode → String
  | .AssertionError => "AssertionError"
  | .ParseError => "ParseError"
  | .DeviceNotFound => "DeviceNotFound"
  | .ConnectionError => "ConnectionError"
  | .NetworkError => "NetworkError"
  | .ProtocolError => "ProtocolError"

/-- The Error() string of an error value.  Leaf errors print as
"Code: message" (as the repository tests show); fmt.Errorf wrapping
concatenates the static text with the inner Error() string; the ctx sentinels
print the fixed Go context package texts. -/
def errString : AdbError → String
  | .err c m => codeName c ++ ": " ++ m
  | .wrapClient op d inner => "error " ++ op ++ " (" ++ d ++ "): " ++ errString inner
  | .fmtWrap pre inner => pre ++ errString inner
  | .fmtNew m => m
  | .ctx .canceled => "context canceled"
  | .ctx .deadlineExceeded => "context deadline exceeded"
  | .noOp => "no-op"

/-- The innermost error code of a possibly wrapped error, the quantity the
repository inspects through HasErrCode: wrapping layers are transparent. -/
def rootCode : AdbError → Option ErrCode
  | .err c _ => some c
  | .wrapClient _ _ inner => rootCode inner
  | .fmtWrap _ inner => rootCode inner
  | .fmtNew _ => none
  | .ctx _ => none
  | .noOp => none

/-- The direct cause of a wrapping error, when there is one. -/
def causeOf : AdbError → Option AdbError
  | .wrapClient _ _ inner => some inner
  | .fmtWrap _ inner => some inner
  | _ => none

/-- Whether an error is, at its outermost layer, wrapped with the given
operation name and descriptor string (the shape wrapClientError produces). -/
def isWrappedWith (op desc : String) : AdbError → Bool
  | .wrapClient o d _ => o == op && d == desc
  | _ => false

/-- Whitespace test on a single character, covering the ASCII white space
characters recognized by Go's unicode.IsSpace. -/
def isSpaceChar (c : Char) : Bool :=
  c = ' ' || c = '\t' || c = '\n' || c = '\r' || c = '\x0b' || c = '\x0c'

/-- Modelled from the spec: isBlank (missing from src/) decides whether a
string is empty or consists only of whitespace. -/
def isBlank (s : String) : Bool :=
  s.toList.all isSpaceChar

/-- Modelled from the spec: containsWhitespace (missing from src/) decides
whether a string contains a whitespace character. -/
def containsWhitespace (s : String) : Bool :=
  s.toList.any isSpaceChar

/-- Whether a string contains a double-quote character, as
strings.ContainsRune(arg, the double quote) in prepareCommandLine. -/
def hasDoubleQuote (s : String) : Bool :=
  s.toList.any (fun c => c = '"')

/-- Wrapping a string in double quotes, as the Sprintf in prepareCommandLine. -/
def quoteArg (s : String) : String :=
  "\"" ++ s ++ "\""

/-- The loop body of prepareCommandLine over the argument slice: walks the
arguments from index i, stopping at the first argument holding a double quote
(returning its index and content), and otherwise overwriting in place every
argument containing whitespace with its double-quoted form.  The first
component is the final state of the caller's slice, mutated up to the point
where the loop stopped. -/
def processArgs : List String → Nat → List String × Option (Nat × String)
  | [], _ => ([], none)
  | a :: rest, i =>
    if hasDoubleQuote a then
      (a :: rest, some (i, a))
    else
      let a2 := if containsWhitespace a then quoteArg a else a
      let r := processArgs rest (i + 1)
      (a2 :: r.1, r.2)

/-- Embedding of prepareCommandLine of device.go.  Returns the final state of
the caller's argument slice (device.go mutates it in place) together with the
prepared command line or the error.  A blank command fails with
AssertionError before the loop runs; an argument with a double quote fails
with ParseError naming its index and content; otherwise whitespace-holding
arguments are double-quoted in place and the line is the command followed by
the space-joined arguments. -/
def prepareCommandLine (cmd : String) (args : List String) :
    List String × Except AdbError String :=
  if isBlank cmd then
    (args, .error (.err .AssertionError "command cannot be empty"))
  else
    let r := processArgs args 0
    match r.2 with
    | some (i, a) =>
      (r.1, .error (.err .ParseError
        ("arg at index " ++ toString i ++ " contains an invalid double quote: " ++ a)))
    | none =>
      if r.1.length > 0 then
        (r.1, .ok (cmd ++ " " ++ String.intercalate " " r.1))
      else
        (r.1, .ok cmd)

/-- Splitting a character list at every occurrence of a separator, matching
Go's strings.Split: the result always has one more piece than there are
separators, and empty pieces are kept. -/
def splitChar (sep : Char) : List Char → List (List Char)
  | [] => [[]]
  | c :: cs =>
    if c = sep then
      [] :: splitChar sep cs
    else
      match splitChar sep cs with
      | [] => [[c]]
      | h :: t => (c :: h) :: t

/-- The last slash-separated segment of a command string, as
components[len(components)-1] after strings.Split(cmd, the slash) in the
cancellation watcher of RunCommandContext. -/
def lastComponent (s : String) : String :=
  String.mk ((splitChar '/' s.toList).getLastD [])

/-- The full process-matching string the cancellation watcher builds: the last
slash segment of the command, followed, when the argument slice is nonempty,
by a space and the space-joined arguments as the slice stands at that moment. -/
def watcherFullCommand (cmd : String) (argsNow : List String) : String :=
  let process := lastComponent cmd
  if argsNow.length > 0 then
    process ++ " " ++ String.intercalate " " argsNow
  else
    process

/-- The shell command the watcher runs to locate the process id, exactly the
Sprintf format of device.go line 176. -/
def procFetchCmd (fullCommand : String) : String :=
  "ps -f -A | grep \x27" ++ fullCommand ++
    "\x27 | sed \x27s/   */ /g\x27 | cut -d \x27 \x27 -f 2 | head -n 1"

/-- Trimming leading and trailing whitespace, as strings.TrimSpace. -/
def trimSpace (s : String) : String :=
  String.mk (((s.toList.dropWhile isSpaceChar).reverse.dropWhile isSpaceChar).reverse)

/-- The kill command the watcher issues from the trimmed output of the
process-id fetch: none when the trimmed output is empty (the watcher logs and
returns), otherwise the kill line of device.go line 188. -/
def watcherKillCmd (fetchOut : String) : Option String :=
  let t := trimSpace fetchOut
  if t = "" then none else some ("kill " ++ t)

/-- Modelled from the spec: the closed descriptor variant of the device
descriptor resolver (missing from src/), spec section 3. -/
inductive DeviceDescriptor where
  | serial (s : String)
  | usbAny
  | localAny
  | transportId (n : Nat)
  | anyDevice
deriving DecidableEq, Repr

/-- Modelled from the spec: the host-prefix column of the resolver table in
spec section 6. -/
def hostPfx : DeviceDescriptor → String
  | .serial s => "host-serial:" ++ s
  | .usbAny => "host-usb"
  | .localAny => "host-local"
  | .transportId n => "host-transport-id:" ++ toString n
  | .anyDevice => "host"

/-- Modelled from the spec: the transport-descriptor column of the resolver
table in spec section 6. -/
def transportDesc : DeviceDescriptor → String
  | .serial s => "serial:" ++ s
  | .usbAny => "usb:"
  | .localAny => "local:"
  | .transportId n => "transport-id:" ++ toString n
  | .anyDevice => "transport-any"

/-- Modelled from the spec: the string form of a device descriptor, used by
the error-wrapping layer as the device context; taken as the transport
descriptor string. -/
def descString (d : DeviceDescriptor) : String :=
  transportDesc d

/-- The request dialDevice and dialContext send to pin the connection to the
device described by the descriptor. -/
def dialRequest (d : DeviceDescriptor) : String :=
  "host:" ++ transportDesc d

/-- Environment of one RunCommand execution: the outcomes of dialDevice,
SendMessage, ReadStatus and ReadUntilEof.  body is the byte sequence
ReadUntilEof accumulated before returning (its read error, when any, is
readErr). -/
structure ConnEnv where
  dial : Except AdbError Unit
  send : Option AdbError
  status : Option AdbError
  body : String
  readErr : Option AdbError

/-- Result of a RunCommand execution: the returned output string, the
returned error, and whether a connection to the device was dialed. -/
structure CmdResult where
  out : String
  err : Option AdbError
  dialAttempted : Bool
deriving DecidableEq, Repr

/-- Embedding of Device.RunCommand of device.go: prepare the command line
(failures wrapped by wrapClientError with operation RunCommand and the
descriptor, before any dial), dial the device, send the shell request, read
the status, then read until end of stream, wrapping every error the same
way and returning the output read. -/
def RunCommand (d : DeviceDescriptor) (env : ConnEnv) (cmd : String)
    (args : List String) : CmdResult :=
  match (prepareCommandLine cmd args).2 with
  | .error e => ⟨"", some (.wrapClient "RunCommand" (descString d) e), false⟩
  | .ok _ =>
    match env.dial with
    | .error e => ⟨"", some (.wrapClient "RunCommand" (descString d) e), true⟩
    | .ok _ =>
      match env.send with
      | some e => ⟨"", some (.wrapClient "RunCommand" (descString d) e), true⟩
      | none =>
        match env.status with
        | some e => ⟨"", some (.wrapClient "RunCommand" (descString d) e), true⟩
        | none =>
          ⟨env.body, env.readErr.map (.wrapClient "RunCommand" (descString d) ·), true⟩

/-- Environment of one RunCommandContext execution: as ConnEnv, plus the
value ctx.Err() has when the switch after ReadUntilEof inspects it (some
when the cancellation signal fired before the read returned). -/
structure CtxEnv where
  dial : Except AdbError Unit
  send : Option AdbError
  status : Option AdbError
  body : String
  readErr : Option AdbError
  ctxErrAtReturn : Option CtxErr

/-- Result of a RunCommandContext execution: output, error, and the
process-id fetch command the cancellation watcher builds when the
cancellation signal fires while the read is in flight (none when the watcher
never activates). -/
structure CtxResult where
  out : String
  err : Option AdbError
  watcherFetch : Option String
deriving DecidableEq, Repr

/-- Embedding of Device.RunCommandContext of device.go.  Failures before the
read phase are wrapped by fmt.Errorf with a static prefix (not by
wrapClientError).  After a successful status read the watcher goroutine is
armed: when the cancellation signal fires before the stream closes it builds
its process-matching string from the last slash segment of the original
command and the argument slice as mutated by prepareCommandLine.  The switch
after ReadUntilEof returns the output read together with ctx.Err() whenever
the context was cancelled, otherwise the wrapped read error, otherwise
success. -/
def RunCommandContext (d : DeviceDescriptor) (env : CtxEnv) (cmd : String)
    (args : List String) : CtxResult :=
  let prep := prepareCommandLine cmd args
  match prep.2 with
  | .error e => ⟨"", some (.fmtWrap "prepareCommandLine err: " e), none⟩
  | .ok _ =>
    match env.dial with
    | .error e => ⟨"", some (.fmtWrap "dialContext err: " e), none⟩
    | .ok _ =>
      match env.send with
      | some e => ⟨"", some (.fmtWrap "conn.SendMessage err: " e), none⟩
      | none =>
        match env.status with
        | some e => ⟨"", some (.fmtWrap "conn.ReadStatus err: " e), none⟩
        | none =>
          let wfetch :=
            match env.ctxErrAtReturn with
            | some _ => some (procFetchCmd (watcherFullCommand cmd prep.1))
            | none => none
          match env.ctxErrAtReturn with
          | some ce => ⟨env.body, some (.ctx ce), wfetch⟩
          | none =>
            match env.readErr with
            | some e => ⟨env.body, some (.fmtWrap "conn.ReadUntilEof err: " e), wfetch⟩
            | none => ⟨env.body, none, wfetch⟩

/-- The device-record shape DeviceInfo works with: the fields of the
repository's DeviceInfo structure that device.go reads (the structure itself
is not under src/; modelled from the spec and the repository tests). -/
structure DeviceInfo where
  serial : String
  product : String
deriving DecidableEq, Repr

/-- The linear search of Device.DeviceInfo over the device listing: the first
record whose Serial equals the queried serial. -/
def findBySerial (serial : String) : List DeviceInfo → Option DeviceInfo
  | [] => none
  | d :: rest => if d.serial = serial then some d else findBySerial serial rest

/-- Environment of one DeviceInfo execution: the outcome of the Serial query
and the outcome of deviceListFunc. -/
structure InfoEnv where
  serialRes : Except AdbError String
  listRes : Except AdbError (List DeviceInfo)

/-- Embedding of Device.DeviceInfo of device.go: query the serial, list the
devices, return the first record with that serial, and otherwise a
DeviceNotFound error naming the missing serial, each failure wrapped by
wrapClientError with the operation name and descriptor. -/
def DeviceInfoOp (d : DeviceDescriptor) (env : InfoEnv) : Except AdbError DeviceInfo :=
  match env.serialRes with
  | .error e => .error (.wrapClient "GetDeviceInfo(GetSerial)" (descString d) e)
  | .ok serial =>
    match env.listRes with
    | .error e => .error (.wrapClient "DeviceInfo(ListDevices)" (descString d) e)
    | .ok devices =>
      match findBySerial serial devices with
      | some info => .ok info
      | none =>
        .error (.wrapClient "DeviceInfo" (descString d)
          (.err .DeviceNotFound ("device list doesn't contain serial " ++ serial)))

/-- Modelled from the spec: the device-state enumeration (missing from src/);
device.go uses the invalid and unauthorized values directly. -/
inductive DeviceState where
  | invalid
  | unauthorized
  | disconnected
  | offline
  | online
deriving DecidableEq, Repr

/-- Substring search on character lists, matching strings.Contains. -/
def containsSubList (sub : List Char) : List Char → Bool
  | [] => sub.isEmpty
  | c :: t => sub.isPrefixOf (c :: t) || containsSubList sub t

/-- Whether the string s contains sub as a substring, as
strings.Contains(s, sub). -/
def containsSubstrB (s sub : String) : Bool :=
  containsSubList sub.toList s.toList

/-- Environment of one State execution: the outcome of the get-state
attribute query, and the result parseDeviceState would give on the returned
attribute (parseDeviceState is not under src/; its outcome is supplied by the
environment). -/
structure StateEnv where
  getAttr : Except AdbError String
  parsed : DeviceState × Option AdbError

/-- Embedding of Device.State of device.go: when the attribute query fails
with an error whose Error() string contains "unauthorized" the unauthorized
state is returned with no error; any other query failure is returned as the
invalid state with the error wrapped by wrapClientError; on success the
parse outcome is returned, its error wrapped the same way. -/
def StateOp (d : DeviceDescriptor) (env : StateEnv) : DeviceState × Option AdbError :=
  match env.getAttr with
  | .error e =>
    if containsSubstrB (errString e) "unauthorized" then
      (.unauthorized, none)
    else
      (.invalid, some (.wrapClient "State" (descString d) e))
  | .ok _ =>
    (env.parsed.1, env.parsed.2.map (.wrapClient "State" (descString d) ·))

/-- Environment of one Root or Unroot execution: the outcome of dialDevice
and of roundTripUntilEof (the response text on success). -/
structure RootEnv where
  dial : Except AdbError Unit
  response : Except AdbError String

/-- Outcome of one Root or Unroot execution: the requests sent over the wire
(the device-pinning transport request and the operation request), and the
returned error, when any. -/
structure RootOutcome where
  requests : List String
  err : Option AdbError
deriving DecidableEq, Repr

/-- Embedding of Device.Root of device.go: dial a device-pinned connection,
round-trip the literal request root: reading until end of stream, then
classify the response text by substring: restarting as root is success,
already running as root is the ErrNoOp sentinel, anything else is an error
carrying the response text. -/
def Root (d : DeviceDescriptor) (env : RootEnv) : RootOutcome :=
  match env.dial with
  | .error e => ⟨[], some (.fmtWrap "dialDevice failed: " e)⟩
  | .ok _ =>
    match env.response with
    | .error e => ⟨[dialRequest d, "root:"], some (.fmtWrap "roundTripUntilEof failed: " e)⟩
    | .ok resp =>
      ⟨[dialRequest d, "root:"],
        if containsSubstrB resp "restarting adbd as root" then
          none
        else if containsSubstrB resp "adbd is already running as root" then
          some .noOp
        else
          some (.fmtNew ("unexpected response: " ++ resp))⟩

/-- Embedding of Device.Unroot of device.go, symmetric to Root with the
request unroot: and the non-root response texts. -/
def Unroot (d : DeviceDescriptor) (env : RootEnv) : RootOutcome :=
  match env.dial with
  | .error e => ⟨[], some (.fmtWrap "dialDevice failed: " e)⟩
  | .ok _ =>
    match env.response with
    | .error e => ⟨[dialRequest d, "unroot:"], some (.fmtWrap "roundTripUntilEof failed: " e)⟩
    | .ok resp =>
      ⟨[dialRequest d, "unroot:"],
        if containsSubstrB resp "restarting adbd as non root" then
          none
        else if containsSubstrB resp "adbd not running as root" then
          some .noOp
        else
          some (.fmtNew ("unexpected unroot response: " ++ resp))⟩

/-- Environment of one WaitFor execution: the outcome of the server dial and
of the round trip. -/
structure WaitEnv where
  dial : Except AdbError Unit
  response : Except AdbError String

/-- Embedding of Device.WaitFor of device.go: dial the server, round-trip the
wait-for-any request; failures are wrapped by fmt.Errorf with a static
prefix, a nonempty response is only logged, and success returns no error. -/
def WaitFor (d : DeviceDescriptor) (env : WaitEnv) (state : String) : Option AdbError :=
  match env.dial with
  | .error e => some (.fmtWrap "server Dial: " e)
  | .ok _ =>
    match env.response with
    | .error e => some (.fmtWrap "roundTripUntilEof err: " e)
    | .ok _ => none

/-- Environment of one sync-based operation (Stat, OpenRead, OpenWrite): the
outcome of getSyncConn and of the sync-protocol operation itself. -/
structure SyncEnv where
  syncConn : Except AdbError Unit
  opRes : Except AdbError Unit

/-- Embedding of the error paths of Device.Stat of device.go: both the
sync-connection failure and the stat failure are wrapped by wrapClientError
with the operation text Stat(path) and the descriptor. -/
def Stat (d : DeviceDescriptor) (env : SyncEnv) (path : String) : Option AdbError :=
  match env.syncConn with
  | .error e => some (.wrapClient ("Stat(" ++ path ++ ")") (descString d) e)
  | .ok _ =>
    match env.opRes with
    | .error e => some (.wrapClient ("Stat(" ++ path ++ ")") (descString d) e)
    | .ok _ => none

/-- Embedding of the error paths of Device.OpenRead of device.go. -/
def OpenRead (d : DeviceDescriptor) (env : SyncEnv) (path : String) : Option AdbError :=
  match env.syncConn with
  | .error e => some (.wrapClient ("OpenRead(" ++ path ++ ")") (descString d) e)
  | .ok _ =>
    match env.opRes with
    | .error e => some (.wrapClient ("OpenRead(" ++ path ++ ")") (descString d) e)
    | .ok _ => none

/-- Embedding of the error paths of Device.OpenWrite of device.go. -/
def OpenWrite (d : DeviceDescriptor) (env : SyncEnv) (path : String) : Option AdbError :=
  match env.syncConn with
  | .error e => some (.wrapClient ("OpenWrite(" ++ path ++ ")") (descString d) e)
  | .ok _ =>
    match env.opRes with
    | .error e => some (.wrapClient ("OpenWrite(" ++ path ++ ")") (descString d) e)
    | .ok _ => none

/-- The quoting rule of the spec, stated independently of the loop of
prepareCommandLine: an argument containing whitespace is wrapped in double
quotes, any other argument is left unchanged.  Used to compare the source
embedding against the spec's description. -/
def specQuoteArg (a : String) : String :=
  if containsWhitespace a then quoteArg a else a

/-! Helper lemmas about the argument loop of prepareCommandLine. -/

theorem processArgs_no_quote (args : List String) :
    ∀ i, (∀ a ∈ args, hasDoubleQuote a = false) →
      processArgs args i = (args.map specQuoteArg, none) := by
  induction args with
  | nil => intro i _; rfl
  | cons a rest ih =>
    intro i h
    have ha : hasDoubleQuote a = false := h a (List.mem_cons_self a rest)
    have hr := ih (i + 1) (fun b hb => h b (List.mem_cons_of_mem a hb))
    simp [processArgs, ha, hr, specQuoteArg]

theorem processArgs_first_quote (pre : List String) (bad : String) (rest : List String) :
    ∀ i, (∀ a ∈ pre, hasDoubleQuote a = false) → hasDoubleQuote bad = true →
      processArgs (pre ++ bad :: rest) i =
        (pre.map specQuoteArg ++ bad :: rest, some (i + pre.length, bad)) := by
  induction pre with
  | nil => intro i _ hbad; simp [processArgs, hbad]
  | cons a pr ih =>
    intro i h hbad
    have ha : hasDoubleQuote a = false := h a (List.mem_cons_self a pr)
    have hr := ih (i + 1) (fun b hb => h b (List.mem_cons_of_mem a hb)) hbad
    have hidx : i + 1 + pr.length = i + (pr.length + 1) := by omega
    simp [processArgs, ha, hr, specQuoteArg, hidx]

theorem processArgs_append_no_quote (pre rest : List String) :
    ∀ i, (∀ a ∈ pre, hasDoubleQuote a = false) →
      processArgs (pre ++ rest) i =
        (pre.map specQuoteArg ++ (processArgs rest (i + pre.length)).1,
          (processArgs rest (i + pre.length)).2) := by
  induction pre with
  | nil => intro i _; simp
  | cons a pr ih =>
    intro i h
    have ha : hasDoubleQuote a = false := h a (List.mem_cons_self a pr)
    have hr := ih (i + 1) (fun b hb => h b (List.mem_cons_of_mem a hb))
    have hidx : i + 1 + pr.length = i + (pr.length + 1) := by omega
    simp [processArgs, ha, hr, specQuoteArg, hidx]

theorem prepare_fst (cmd : String) (args : List String) (hb : isBlank cmd = false) :
    (prepareCommandLine cmd args).1 = (processArgs args 0).1 := by
  unfold prepareCommandLine
  rw [hb]
  simp only [Bool.false_eq_true, if_false]
  split
  · rfl
  · split <;> rfl

theorem prepare_fst_no_quote (cmd : String) (args : List String)
    (hb : isBlank cmd = false)
    (hq : ∀ a ∈ args, hasDoubleQuote a = false) :
    (prepareCommandLine cmd args).1 = args.map specQuoteArg := by
  rw [prepare_fst cmd args hb, processArgs_no_quote args 0 hq]

theorem prepare_ok_not_blank (cmd : String) (args : List String) (p : String)
    (hp : (prepareCommandLine cmd args).2 = .ok p) : isBlank cmd = false := by
  cases h : isBlank cmd
  · rfl
  · rw [prepareCommandLine, if_pos h] at hp
    exact absurd hp (by simp)

/-- C4: for every non-blank command, preparation with zero arguments returns
the command unchanged, and with double-quote-free arguments it returns the
command followed by the space-joined arguments, where each argument
containing whitespace is wrapped in double quotes and every other argument is
left unchanged, in the original order. -/
theorem claim4_prepare_quoting (cmd : String) (args : List String)
    (hb : isBlank cmd = false)
    (hq : ∀ a ∈ args, hasDoubleQuote a = false) :
    (prepareCommandLine cmd []).2 = .ok cmd ∧
    (args ≠ [] →
      (prepareCommandLine cmd args).2 =
        .ok (cmd ++ " " ++ String.intercalate " " (args.map specQuoteArg))) ∧
    (∀ a, containsWhitespace a = true → specQuoteArg a = "\"" ++ a ++ "\"") ∧
    (∀ a, containsWhitespace a = false → specQuoteArg a = a) := by
  refine ⟨?_, ?_, ?_, ?_⟩
  · simp [prepareCommandLine, hb, processArgs]
  · intro hne
    have h := processArgs_no_quote args 0 hq
    have hlen : 0 < args.length := List.length_pos.mpr hne
    simp [prepareCommandLine, hb, h, hlen]
  · intro a ha; simp [specQuoteArg, quoteArg, ha]
  · intro a ha; simp [specQuoteArg, ha]

theorem claim4_prepare_quoting_witness :
    (prepareCommandLine "cmd" []).2 = .ok "cmd" ∧
    (prepareCommandLine "cmd" ["arg with spaces", "clean"]).2 =
      .ok ("cmd" ++ " " ++
        String.intercalate " " (["arg with spaces", "clean"].map specQuoteArg)) :=
  ⟨(claim4_prepare_quoting "cmd" [] (by decide) (by decide)).1,
   (claim4_prepare_quoting "cmd" ["arg with spaces", "clean"] (by decide)
      (by decide)).2.1 (by decide)⟩

/-- C5: when the argument list is a quote-free block followed by the first
argument containing a double quote, preparation of a non-blank command fails
with a ParseError whose message names the index of that argument and its
content, and no command line is produced. -/
theorem claim5_double_quote_parse_error (cmd : String) (pre rest : List String)
    (bad : String)
    (hb : isBlank cmd = false)
    (hpre : ∀ a ∈ pre, hasDoubleQuote a = false)
    (hbad : hasDoubleQuote bad = true) :
    (prepareCommandLine cmd (pre ++ bad :: rest)).2 =
      .error (.err .ParseError
        ("arg at index " ++ toString pre.length ++
          " contains an invalid double quote: " ++ bad)) ∧
    (∀ s, (prepareCommandLine cmd (pre ++ bad :: rest)).2 ≠ .ok s) := by
  have h := processArgs_first_quote pre bad rest 0 hpre hbad
  constructor
  · simp [prepareCommandLine, hb, h]
  · intro s hs
    rw [prepareCommandLine, if_neg (by simp [hb])] at hs
    simp only [h] at hs
    exact absurd hs (by simp)

theorem claim5_double_quote_parse_error_witness :
    (prepareCommandLine "cmd" ([] ++ "quoted\"arg" :: [])).2 =
      .error (.err .ParseError
        ("arg at index " ++ toString (List.length ([] : List String)) ++
          " contains an invalid double quote: " ++ "quoted\"arg")) :=
  (claim5_double_quote_parse_error "cmd" [] [] "quoted\"arg"
    (by decide) (by decide) (by decide)).1

/-- C6: for every command string that is empty or consists only of
whitespace, RunCommand fails with an error whose innermost kind is
AssertionError, and no connection to the device is dialed. -/
theorem claim6_blank_command (d : DeviceDescriptor) (env : ConnEnv)
    (cmd : String) (args : List String)
    (hb : isBlank cmd = true) :
    RunCommand d env cmd args =
      ⟨"", some (.wrapClient "RunCommand" (descString d)
        (.err .AssertionError "command cannot be empty")), false⟩ ∧
    rootCode (.wrapClient "RunCommand" (descString d)
      (.err .AssertionError "command cannot be empty")) = some .AssertionError := by
  constructor
  · simp [RunCommand, prepareCommandLine, hb]
  · rfl

theorem claim6_blank_command_witness :
    RunCommand (.serial "abc") ⟨.ok (), none, none, "", none⟩ "   " ["x"] =
      ⟨"", some (.wrapClient "RunCommand" (descString (.serial "abc"))
        (.err .AssertionError "command cannot be empty")), false⟩ :=
  (claim6_blank_command (.serial "abc") ⟨.ok (), none, none, "", none⟩
    "   " ["x"] (by decide)).1

/-- C1: when a RunCommandContext execution has passed preparation, dial,
send and status, and the cancellation signal fires before the remote stream
closes (so ctx.Err() is non-nil at the switch after the read), the call
returns the output read so far together with exactly the context's own
error, which is neither a fmt.Errorf-wrapped read error nor a leaf error of
the I/O taxonomy. -/
theorem claim1_cancellation_result (d : DeviceDescriptor) (env : CtxEnv)
    (cmd : String) (args : List String) (p : String) (ce : CtxErr)
    (hp : (prepareCommandLine cmd args).2 = .ok p)
    (hd : env.dial = .ok ())
    (hs : env.send = none)
    (hst : env.status = none)
    (hc : env.ctxErrAtReturn = some ce) :
    (RunCommandContext d env cmd args).out = env.body ∧
    (RunCommandContext d env cmd args).err = some (.ctx ce) ∧
    (∀ pre e, AdbError.ctx ce ≠ .fmtWrap pre e) ∧
    (∀ c m, AdbError.ctx ce ≠ .err c m) := by
  refine ⟨?_, ?_, ?_, ?_⟩
  · simp [RunCommandContext, hp, hd, hs, hst, hc]
  · simp [RunCommandContext, hp, hd, hs, hst, hc]
  · intro pre e h; exact absurd h (by simp)
  · intro c m h; exact absurd h (by simp)

theorem claim1_cancellation_result_witness :
    (RunCommandContext (.serial "dev")
        ⟨.ok (), none, none, "output so far", none, some .canceled⟩
        "sleep" ["5"]).out = "output so far" ∧
    (RunCommandContext (.serial "dev")
        ⟨.ok (), none, none, "output so far", none, some .canceled⟩
        "sleep" ["5"]).err = some (.ctx .canceled) := by
  have h := claim1_cancellation_result (.serial "dev")
    ⟨.ok (), none, none, "output so far", none, some .canceled⟩
    "sleep" ["5"] "sleep 5" .canceled rfl rfl rfl rfl rfl
  exact ⟨h.1, h.2.1⟩

/-! Helper lemmas about the linear search of DeviceInfo. -/

theorem findBySerial_some_serial (s : String) (l : List DeviceInfo) (r : DeviceInfo) :
    findBySerial s l = some r → r.serial = s := by
  induction l with
  | nil => intro h; exact absurd h (by simp [findBySerial])
  | cons a t ih =>
    intro h
    rw [findBySerial] at h
    by_cases ha : a.serial = s
    · rw [if_pos ha] at h
      cases h
      exact ha
    · rw [if_neg ha] at h
      exact ih h

theorem findBySerial_eq_none_iff (s : String) (l : List DeviceInfo) :
    findBySerial s l = none ↔ ∀ r ∈ l, r.serial ≠ s := by
  induction l with
  | nil => simp [findBySerial]
  | cons a t ih =>
    rw [findBySerial]
    by_cases ha : a.serial = s
    · simp [ha]
    · simp [ha, ih]

/-- C7: given a successful serial query and a successful device listing,
DeviceInfo returns the first record whose Serial equals the queried serial
(and that record does carry that serial), while when no record matches it
returns an error wrapping a DeviceNotFound error whose message names the
missing serial. -/
theorem claim7_device_info (d : DeviceDescriptor) (env : InfoEnv)
    (serial : String) (devices : List DeviceInfo)
    (hs : env.serialRes = .ok serial)
    (hl : env.listRes = .ok devices) :
    (∀ r, findBySerial serial devices = some r →
      DeviceInfoOp d env = .ok r ∧ r.serial = serial) ∧
    ((∀ r ∈ devices, r.serial ≠ serial) →
      DeviceInfoOp d env =
        .error (.wrapClient "DeviceInfo" (descString d)
          (.err .DeviceNotFound ("device list doesn't contain serial " ++ serial)))) ∧
    rootCode (.wrapClient "DeviceInfo" (descString d)
      (.err .DeviceNotFound ("device list doesn't contain serial " ++ serial))) =
        some .DeviceNotFound := by
  refine ⟨?_, ?_, rfl⟩
  · intro r hr
    exact ⟨by simp [DeviceInfoOp, hs, hl, hr], findBySerial_some_serial serial devices r hr⟩
  · intro hnone
    have h : findBySerial serial devices = none :=
      (findBySerial_eq_none_iff serial devices).mpr hnone
    simp [DeviceInfoOp, hs, hl, h]

theorem claim7_device_info_witness :
    DeviceInfoOp (.serial "abc")
        ⟨.ok "abc", .ok [⟨"abc", "Foo"⟩, ⟨"def", "Bar"⟩]⟩ = .ok ⟨"abc", "Foo"⟩ ∧
    DeviceInfoOp (.serial "zzz")
        ⟨.ok "zzz", .ok [⟨"abc", "Foo"⟩, ⟨"def", "Bar"⟩]⟩ =
      .error (.wrapClient "DeviceInfo" (descString (.serial "zzz"))
        (.err .DeviceNotFound ("device list doesn't contain serial " ++ "zzz"))) := by
  have h1 := (claim7_device_info (.serial "abc")
    ⟨.ok "abc", .ok [⟨"abc", "Foo"⟩, ⟨"def", "Bar"⟩]⟩ "abc"
    [⟨"abc", "Foo"⟩, ⟨"def", "Bar"⟩] rfl rfl).1 ⟨"abc", "Foo"⟩ (by decide)
  have h2 := (claim7_device_info (.serial "zzz")
    ⟨.ok "zzz", .ok [⟨"abc", "Foo"⟩, ⟨"def", "Bar"⟩]⟩ "zzz"
    [⟨"abc", "Foo"⟩, ⟨"def", "Bar"⟩] rfl rfl).2.1 (by decide)
  exact ⟨h1.1, h2⟩

/-- C9: when the get-state attribute query fails with an error whose Error()
string contains the substring unauthorized, State returns the Unauthorized
state with no error; when the query fails with any other error, State
returns the invalid state with the error wrapped with the operation name and
descriptor. -/
theorem claim9_state_unauthorized (d : DeviceDescriptor) (env : StateEnv)
    (e : AdbError)
    (h : env.getAttr = .error e) :
    (containsSubstrB (errString e) "unauthorized" = true →
      StateOp d env = (.unauthorized, none)) ∧
    (containsSubstrB (errString e) "unauthorized" = false →
      StateOp d env = (.invalid, some (.wrapClient "State" (descString d) e))) := by
  constructor <;> intro hc <;> simp [StateOp, h, hc]

theorem claim9_state_unauthorized_witness :
    StateOp (.serial "dev") ⟨.error (.fmtNew "device unauthorized"), (.online, none)⟩ =
      (.unauthorized, none) ∧
    StateOp (.serial "dev") ⟨.error (.fmtNew "connection refused"), (.online, none)⟩ =
      (.invalid, some (.wrapClient "State" (descString (.serial "dev"))
        (.fmtNew "connection refused"))) := by
  have h1 := (claim9_state_unauthorized (.serial "dev")
    ⟨.error (.fmtNew "device unauthorized"), (.online, none)⟩
    (.fmtNew "device unauthorized") rfl).1 (by decide)
  have h2 := (claim9_state_unauthorized (.serial "dev")
    ⟨.error (.fmtNew "connection refused"), (.online, none)⟩
    (.fmtNew "connection refused") rfl).2 (by decide)
  exact ⟨h1, h2⟩

/-- C8: Root sends the literal request root: (and Unroot sends unroot:) over
a device-pinned connection obtained by the transport request of the
descriptor, and classifies the response text by substring matching into
exactly three outcomes: success when the text says the daemon is restarting
in the target mode, the dedicated ErrNoOp sentinel (distinct from every leaf
or formatted error) when the device is already in the target state, and
otherwise an error whose message reports the response text. -/
theorem claim8_root_unroot (d : DeviceDescriptor) (envR envU : RootEnv)
    (respR respU : String)
    (hdR : envR.dial = .ok ()) (hrR : envR.response = .ok respR)
    (hdU : envU.dial = .ok ()) (hrU : envU.response = .ok respU) :
    (Root d envR).requests = ["host:" ++ transportDesc d, "root:"] ∧
    (Unroot d envU).requests = ["host:" ++ transportDesc d, "unroot:"] ∧
    (containsSubstrB respR "restarting adbd as root" = true →
      (Root d envR).err = none) ∧
    (containsSubstrB respR "restarting adbd as root" = false →
      containsSubstrB respR "adbd is already running as root" = true →
      (Root d envR).err = some .noOp) ∧
    (containsSubstrB respR "restarting adbd as root" = false →
      containsSubstrB respR "adbd is already running as root" = false →
      (Root d envR).err = some (.fmtNew ("unexpected response: " ++ respR)) ∧
      errString (.fmtNew ("unexpected response: " ++ respR)) =
        "unexpected response: " ++ respR) ∧
    ((Root d envR).err = none ∨ (Root d envR).err = some .noOp ∨
      (Root d envR).err = some (.fmtNew ("unexpected response: " ++ respR))) ∧
    (∀ m, AdbError.noOp ≠ .fmtNew m) ∧
    (∀ c m, AdbError.noOp ≠ .err c m) ∧
    (containsSubstrB respU "restarting adbd as non root" = true →
      (Unroot d envU).err = none) ∧
    (containsSubstrB respU "restarting adbd as non root" = false →
      containsSubstrB respU "adbd not running as root" = true →
      (Unroot d envU).err = some .noOp) ∧
    (containsSubstrB respU "restarting adbd as non root" = false →
      containsSubstrB respU "adbd not running as root" = false →
      (Unroot d envU).err = some (.fmtNew ("unexpected unroot response: " ++ respU))) := by
  refine ⟨?_, ?_, ?_, ?_, ?_, ?_, ?_, ?_, ?_, ?_, ?_⟩
  · simp [Root, hdR, hrR, dialRequest]
  · simp [Unroot, hdU, hrU, dialRequest]
  · intro h1; simp [Root, hdR, hrR, h1]
  · intro h1 h2; simp [Root, hdR, hrR, h1, h2]
  · intro h1 h2; exact ⟨by simp [Root, hdR, hrR, h1, h2], rfl⟩
  · by_cases h1 : containsSubstrB respR "restarting adbd as root" = true
    · exact Or.inl (by simp [Root, hdR, hrR, h1])
    · have h1f : containsSubstrB respR "restarting adbd as root" = false :=
        Bool.eq_false_iff.mpr h1
      by_cases h2 : containsSubstrB respR "adbd is already running as root" = true
      · exact Or.inr (Or.inl (by simp [Root, hdR, hrR, h1f, h2]))
      · have h2f : containsSubstrB respR "adbd is already running as root" = false :=
          Bool.eq_false_iff.mpr h2
        exact Or.inr (Or.inr (by simp [Root, hdR, hrR, h1f, h2f]))
  · intro m h; exact absurd h (by simp)
  · intro c m h; exact absurd h (by simp)
  · intro h1; simp [Unroot, hdU, hrU, h1]
  · intro h1 h2; simp [Unroot, hdU, hrU, h1, h2]
  · intro h1 h2; simp [Unroot, hdU, hrU, h1, h2]

theorem claim8_root_unroot_witness :
    (Root (.serial "dev") ⟨.ok (), .ok "restarting adbd as root"⟩).err = none ∧
    (Root (.serial "dev") ⟨.ok (), .ok "adbd is already running as root"⟩).err =
      some .noOp ∧
    (Root (.serial "dev") ⟨.ok (), .ok "mystery"⟩).err =
      some (.fmtNew ("unexpected response: " ++ "mystery")) ∧
    (Root (.serial "dev") ⟨.ok (), .ok "restarting adbd as root"⟩).requests =
      ["host:" ++ transportDesc (.serial "dev"), "root:"] ∧
    (Unroot (.serial "dev") ⟨.ok (), .ok "adbd not running as root"⟩).err =
      some .noOp := by
  have h1 := claim8_root_unroot (.serial "dev")
    ⟨.ok (), .ok "restarting adbd as root"⟩ ⟨.ok (), .ok "x"⟩
    "restarting adbd as root" "x" rfl rfl rfl rfl
  have h2 := claim8_root_unroot (.serial "dev")
    ⟨.ok (), .ok "adbd is already running as root"⟩
    ⟨.ok (), .ok "adbd not running as root"⟩
    "adbd is already running as root" "adbd not running as root" rfl rfl rfl rfl
  have h3 := claim8_root_unroot (.serial "dev")
    ⟨.ok (), .ok "mystery"⟩ ⟨.ok (), .ok "y"⟩ "mystery" "y" rfl rfl rfl rfl
  refine ⟨h1.2.2.1 (by decide), h2.2.2.2.1 (by decide) (by decide),
    (h3.2.2.2.2.1 (by decide) (by decide)).1, h1.1,
    h2.2.2.2.2.2.2.2.2.2.1 (by decide) (by decide)⟩

/-- C2 counterexample: for the cancelled call with command /bin/tool and the
single argument a b (which contains whitespace), the watcher greps for the
already-quoted argument, not for the original one: the claimed string built
from the last slash segment and the original arguments differs from what the
watcher actually uses. -/
theorem claim2_counterexample_watcher_args :
    (RunCommandContext (.serial "s") ⟨.ok (), none, none, "", none, some .canceled⟩
        "/bin/tool" ["a b"]).watcherFetch = some (procFetchCmd "tool \"a b\"") ∧
    lastComponent "/bin/tool" ++ " " ++ String.intercalate " " ["a b"] = "tool a b" ∧
    (RunCommandContext (.serial "s") ⟨.ok (), none, none, "", none, some .canceled⟩
        "/bin/tool" ["a b"]).watcherFetch ≠ some (procFetchCmd "tool a b") := by
  decide

/-- C2 amended: for every cancelled call that reached the read phase, the
watcher greps for the last slash segment of the original command followed,
when arguments were given, by a space and the arguments as they stand after
the in-place quoting of preparation (whitespace-holding arguments wrapped in
double quotes), joined by single spaces, inside the fixed
ps-grep-sed-cut-head pipeline; a nonblank pid fetched that way is then
killed with the kill command, while a blank fetch result aborts the kill. -/
theorem claim2_amended_watcher (d : DeviceDescriptor) (env : CtxEnv)
    (cmd : String) (args : List String) (p : String) (ce : CtxErr)
    (hq : ∀ a ∈ args, hasDoubleQuote a = false)
    (hp : (prepareCommandLine cmd args).2 = .ok p)
    (hd : env.dial = .ok ()) (hs : env.send = none) (hst : env.status = none)
    (hc : env.ctxErrAtReturn = some ce) :
    (args ≠ [] →
      (RunCommandContext d env cmd args).watcherFetch =
        some ("ps -f -A | grep \x27" ++
          (lastComponent cmd ++ " " ++
            String.intercalate " " (args.map specQuoteArg)) ++
          "\x27 | sed \x27s/   */ /g\x27 | cut -d \x27 \x27 -f 2 | head -n 1")) ∧
    (args = [] →
      (RunCommandContext d env cmd args).watcherFetch =
        some ("ps -f -A | grep \x27" ++ lastComponent cmd ++
          "\x27 | sed \x27s/   */ /g\x27 | cut -d \x27 \x27 -f 2 | head -n 1")) ∧
    (∀ o, trimSpace o ≠ "" → watcherKillCmd o = some ("kill " ++ trimSpace o)) ∧
    (∀ o, trimSpace o = "" → watcherKillCmd o = none) := by
  have hb : isBlank cmd = false := prepare_ok_not_blank cmd args p hp
  have hfst : (prepareCommandLine cmd args).1 = args.map specQuoteArg :=
    prepare_fst_no_quote cmd args hb hq
  refine ⟨?_, ?_, ?_, ?_⟩
  · intro hne
    have hlen : 0 < args.length := List.length_pos.mpr hne
    simp [RunCommandContext, hp, hd, hs, hst, hc, hfst, procFetchCmd,
      watcherFullCommand, hlen]
  · intro hnil
    subst hnil
    simp [RunCommandContext, hp, hd, hs, hst, hc, hfst, procFetchCmd,
      watcherFullCommand]
  · intro o ho; simp [watcherKillCmd, ho]
  · intro o ho; simp [watcherKillCmd, ho]

theorem claim2_amended_watcher_witness :
    (RunCommandContext (.serial "s") ⟨.ok (), none, none, "", none, some .canceled⟩
        "/bin/tool" ["a b"]).watcherFetch =
      some ("ps -f -A | grep \x27" ++
        (lastComponent "/bin/tool" ++ " " ++
          String.intercalate " " (["a b"].map specQuoteArg)) ++
        "\x27 | sed \x27s/   */ /g\x27 | cut -d \x27 \x27 -f 2 | head -n 1") ∧
    watcherKillCmd " 4711 \n" = some ("kill " ++ trimSpace " 4711 \n") := by
  have h := claim2_amended_watcher (.serial "s")
    ⟨.ok (), none, none, "", none, some .canceled⟩
    "/bin/tool" ["a b"] "/bin/tool \"a b\"" .canceled (by decide) rfl rfl rfl rfl rfl
  exact ⟨h.1 (by decide), h.2.2.1 " 4711 \n" (by decide)⟩

/-- C3 counterexample: RunCommandContext on an empty command for the device
with serial abc fails, but the returned error is a fmt.Errorf wrapping with
the static text prepareCommandLine err, not a wrapping carrying the
operation name RunCommandContext and the device descriptor string; the
descriptor string does not even occur in the error text. -/
theorem claim3_counterexample_unwrapped_ops :
    (RunCommandContext (.serial "abc") ⟨.ok (), none, none, "", none, none⟩
        "" []).err =
      some (.fmtWrap "prepareCommandLine err: "
        (.err .AssertionError "command cannot be empty")) ∧
    isWrappedWith "RunCommandContext" (descString (.serial "abc"))
      (.fmtWrap "prepareCommandLine err: "
        (.err .AssertionError "command cannot be empty")) = false ∧
    containsSubstrB
      (errString (.fmtWrap "prepareCommandLine err: "
        (.err .AssertionError "command cannot be empty")))
      (descString (.serial "abc")) = false := by
  decide

/-- C3 amended: the operations built on wrapClientError (RunCommand, State,
DeviceInfo, Stat, OpenRead, OpenWrite) wrap every error they return with the
operation name and the device descriptor string, preserving the innermost
kind and the cause; RunCommandContext, Root, Unroot and WaitFor instead wrap
their errors with a static message naming the failing internal call, without
the operation name or the descriptor, though still preserving the inner kind
and cause through the wrapping layer. -/
theorem claim3_amended_wrapping :
    (∀ (d : DeviceDescriptor) (env : ConnEnv) (cmd : String) (args : List String)
        (p : String) (e : AdbError),
      (prepareCommandLine cmd args).2 = .ok p → env.dial = .error e →
      (RunCommand d env cmd args).err =
        some (.wrapClient "RunCommand" (descString d) e)) ∧
    (∀ op desc e, rootCode (.wrapClient op desc e) = rootCode e) ∧
    (∀ op desc e, causeOf (.wrapClient op desc e) = some e) ∧
    (∀ op desc e, isWrappedWith op desc (.wrapClient op desc e) = true) ∧
    (∀ (d : DeviceDescriptor) (env : SyncEnv) (path : String) (e : AdbError),
      env.syncConn = .error e →
      Stat d env path = some (.wrapClient ("Stat(" ++ path ++ ")") (descString d) e) ∧
      OpenRead d env path =
        some (.wrapClient ("OpenRead(" ++ path ++ ")") (descString d) e) ∧
      OpenWrite d env path =
        some (.wrapClient ("OpenWrite(" ++ path ++ ")") (descString d) e)) ∧
    (∀ (d : DeviceDescriptor) (env : CtxEnv) (cmd : String) (args : List String)
        (e : AdbError),
      (prepareCommandLine cmd args).2 = .error e →
      (RunCommandContext d env cmd args).err =
        some (.fmtWrap "prepareCommandLine err: " e) ∧
      isWrappedWith "RunCommandContext" (descString d)
        (.fmtWrap "prepareCommandLine err: " e) = false) ∧
    (∀ pre e, rootCode (.fmtWrap pre e) = rootCode e ∧
      causeOf (.fmtWrap pre e) = some e) ∧
    (∀ (d : DeviceDescriptor) (env : RootEnv) (e : AdbError),
      env.dial = .error e →
      (Root d env).err = some (.fmtWrap "dialDevice failed: " e) ∧
      (Unroot d env).err = some (.fmtWrap "dialDevice failed: " e)) ∧
    (∀ (d : DeviceDescriptor) (env : WaitEnv) (st : String) (e : AdbError),
      env.dial = .error e →
      WaitFor d env st = some (.fmtWrap "server Dial: " e)) := by
  refine ⟨?_, ?_, ?_, ?_, ?_, ?_, ?_, ?_, ?_⟩
  · intro d env cmd args p e hp hd; simp [RunCommand, hp, hd]
  · intro op desc e; rfl
  · intro op desc e; rfl
  · intro op desc e; simp [isWrappedWith]
  · intro d env path e h
    exact ⟨by simp [Stat, h], by simp [OpenRead, h], by simp [OpenWrite, h]⟩
  · intro d env cmd args e hp
    exact ⟨by simp [RunCommandContext, hp], by simp [isWrappedWith]⟩
  · intro pre e; exact ⟨rfl, rfl⟩
  · intro d env e h; exact ⟨by simp [Root, h], by simp [Unroot, h]⟩
  · intro d env st e h; simp [WaitFor, h]

theorem claim3_amended_wrapping_witness :
    (RunCommand (.serial "abc")
        ⟨.error (.err .NetworkError "dial tcp refused"), none, none, "", none⟩
        "ls" []).err =
      some (.wrapClient "RunCommand" (descString (.serial "abc"))
        (.err .NetworkError "dial tcp refused")) ∧
    Stat (.serial "abc") ⟨.error (.err .NetworkError "dial tcp refused"), .ok ()⟩
        "/sdcard" =
      some (.wrapClient ("Stat(" ++ "/sdcard" ++ ")") (descString (.serial "abc"))
        (.err .NetworkError "dial tcp refused")) ∧
    (RunCommandContext (.serial "abc") ⟨.ok (), none, none, "", none, none⟩
        " " []).err =
      some (.fmtWrap "prepareCommandLine err: "
        (.err .AssertionError "command cannot be empty")) := by
  have h := claim3_amended_wrapping
  refine ⟨h.1 (.serial "abc")
      ⟨.error (.err .NetworkError "dial tcp refused"), none, none, "", none⟩
      "ls" [] "ls" (.err .NetworkError "dial tcp refused") rfl rfl,
    (h.2.2.2.2.1 (.serial "abc")
      ⟨.error (.err .NetworkError "dial tcp refused"), .ok ()⟩
      "/sdcard" (.err .NetworkError "dial tcp refused") rfl).1,
    (h.2.2.2.2.2.1 (.serial "abc") ⟨.ok (), none, none, "", none, none⟩
      " " [] (.err .AssertionError "command cannot be empty") rfl).1⟩

/-- C10 counterexample: when an earlier argument contains a double quote the
preparation loop stops there, so a later argument that contains whitespace
and no double quote is not overwritten with its double-quoted form: the
caller's slice keeps the original value at that index. -/
theorem claim10_counterexample_mutation :
    (prepareCommandLine "cmd" ["x\"y", "a b"]).1 = ["x\"y", "a b"] ∧
    containsWhitespace "a b" = true ∧
    hasDoubleQuote "a b" = false ∧
    (prepareCommandLine "cmd" ["x\"y", "a b"]).1.getD 1 "" = "a b" ∧
    (prepareCommandLine "cmd" ["x\"y", "a b"]).1.getD 1 "" ≠ quoteArg "a b" := by
  decide

/-- C10 amended: for a non-blank command, every argument containing
whitespace and no double quote that precedes the first double-quote-holding
argument is overwritten in place with its double-quoted form (when no
argument holds a double quote this covers the whole slice), the overwritten
value really differs from the original, and the cancellation watcher of a
cancelled RunCommandContext call builds its process-matching string from
these already-quoted arguments rather than from the values originally
passed. -/
theorem claim10_amended_mutation (cmd : String) (pre rest : List String)
    (a : String)
    (hb : isBlank cmd = false)
    (hpre : ∀ x ∈ pre, hasDoubleQuote x = false)
    (ha : hasDoubleQuote a = false)
    (hw : containsWhitespace a = true) :
    (prepareCommandLine cmd (pre ++ a :: rest)).1 =
      pre.map specQuoteArg ++ quoteArg a :: (processArgs rest (pre.length + 1)).1 ∧
    quoteArg a ≠ a ∧
    (∀ (d : DeviceDescriptor) (env : CtxEnv) (args : List String) (p : String)
        (ce : CtxErr),
      (∀ x ∈ args, hasDoubleQuote x = false) →
      (prepareCommandLine cmd args).2 = .ok p →
      env.dial = .ok () → env.send = none → env.status = none →
      env.ctxErrAtReturn = some ce →
      (RunCommandContext d env cmd args).watcherFetch =
        some (procFetchCmd (watcherFullCommand cmd (args.map specQuoteArg)))) := by
  refine ⟨?_, ?_, ?_⟩
  · rw [prepare_fst cmd (pre ++ a :: rest) hb,
      processArgs_append_no_quote pre (a :: rest) 0 hpre]
    simp [processArgs, ha, hw, specQuoteArg]
  · intro h
    have hlen : (quoteArg a).length = a.length + 2 := by
      have h1 : ("\"" : String).length = 1 := rfl
      unfold quoteArg
      rw [String.length_append, String.length_append, h1]
      omega
    rw [h] at hlen
    omega
  · intro d env args p ce hq hp hd hs hst hc
    have hbf : isBlank cmd = false := hb
    have hfst : (prepareCommandLine cmd args).1 = args.map specQuoteArg :=
      prepare_fst_no_quote cmd args hbf hq
    simp [RunCommandContext, hp, hd, hs, hst, hc, hfst]

theorem claim10_amended_mutation_witness :
    (prepareCommandLine "cmd" ([] ++ "a b" :: [])).1 =
      ([] : List String).map specQuoteArg ++
        quoteArg "a b" :: (processArgs [] (List.length ([] : List String) + 1)).1 ∧
    (RunCommandContext (.serial "s")
        ⟨.ok (), none, none, "", none, some .canceled⟩
        "cmd" ["a b"]).watcherFetch =
      some (procFetchCmd (watcherFullCommand "cmd" (["a b"].map specQuoteArg))) := by
  have h := claim10_amended_mutation "cmd" [] [] "a b"
    (by decide) (by decide) (by decide) (by decide)
  exact ⟨h.1, h.2.2 (.serial "s") ⟨.ok (), none, none, "", none, some .canceled⟩
    ["a b"] "cmd \"a b\"" .canceled (by decide) rfl rfl rfl rfl rfl⟩

end GoAdb
